import Mathlib

/-!
Verification of the `chu` error-aware dispatch adapter.

`chu` wraps the chi HTTP router, changing the handler signature from the
conventional `func(w, r)` shape to an error-returning
`func(ctx, w, r) error` shape, and invoking a configurable `ErrorHandler`
whenever a handler or middleware reports failure.

The embedding below translates the repository's Go code
(`chu.go`, `adapter.go`, `options.go`, `handlers.go`) into Lean:

* The HTTP response writer is modelled as a `Response` value (a status that
  is set at most once, and a body that is a list of appended chunks); the
  request carries its context value and its URL path.  Error values are
  modelled by their textual message (`err.Error()`), which is all this
  layer ever inspects.
* `Handler`, `ErrorHandler` and the conventional `http.HandlerFunc` shape
  become pure functions over these types; a handler's side effects on the
  writer become explicit state passing.
* The mutable `Router` struct and Go pointer sharing are modelled by a
  `World` containing a heap of `RouterData` records addressed by index;
  the closures that `adapt` registers with chi capture the router pointer,
  so a registered route is recorded as the pair (router index, handler)
  and the `errHandler` field is read from the heap at dispatch time,
  exactly as the Go closure reads `r.errHandler` when it runs.
* chi itself is an external collaborator (spec section 1, 2 and 6): route
  lookup is modelled as first-match lookup of the request path in the
  registration list, and chi's middleware chaining as the standard
  first-registered-outermost nesting the spec describes in section 4.1.
* Conventional (non-error-returning) middleware passed to
  `AdaptMiddleware` is modelled by a finite script of writer/request
  operations and invocations of its `next` handler, so that the shared
  `err` variable mutated by the inner closure can be threaded explicitly.
* Loop-variable capture in `Use` follows per-iteration semantics
  (Go >= 1.22), so the wrapped middleware at position `i` applies the
  user middleware registered at position `i`.
-/

namespace Chu

/-! ## Base HTTP model -/

/-- Error values, identified by their textual message (`err.Error()`). -/
abbrev Err := String

/-- Opaque request-context values (`context.Context`). -/
abbrev Ctx := Nat

/-- An `*http.Request`: its context value and its URL path. -/
structure Request where
  ctx : Ctx
  path : String
deriving DecidableEq

/-- An `http.ResponseWriter` in its observable state: the status code that
has been written (at most once), and the body chunks written so far. -/
structure Response where
  status : Option Nat
  body : List String
deriving DecidableEq

/-- `w.Write(s)`: appends to the body; an unset status becomes the implicit
200 of the Go HTTP layer. -/
def Response.write (w : Response) (s : String) : Response :=
  { status := some (w.status.getD 200), body := w.body ++ [s] }

/-- `w.WriteHeader(code)`: sets the status; a second call is ignored. -/
def Response.writeHeader (w : Response) (code : Nat) : Response :=
  match w.status with
  | none => { w with status := some code }
  | some _ => w

/-- A response writer nothing has been written to yet. -/
def freshResponse : Response := { status := none, body := [] }

/-- `chu.Handler`: `func(ctx, w, r) error`.  The result is the updated
writer together with the returned error (`none` = `nil`). -/
abbrev Handler := Ctx → Response → Request → Response × Option Err

/-- `chu.ErrorHandler`: `func(w, r, err)`. -/
abbrev ErrorHandler := Response → Request → Err → Response

/-- The conventional `http.HandlerFunc` shape: `func(w, r)`. -/
abbrev HttpHandler := Response → Request → Response

/-- `http.Error(w, msg, code)`: writes the header, then the message
followed by a newline (`fmt.Fprintln`). -/
def httpError (w : Response) (msg : String) (code : Nat) : Response :=
  (w.writeHeader code).write (msg ++ "\n")

/-- `defaultErrorHandler` from `options.go`:
`http.Error(w, err.Error(), http.StatusInternalServerError)`. -/
def defaultErrorHandler : ErrorHandler :=
  fun w _ err => httpError w err 500

/-! ## adapter.go -/

/-- `AdaptHandler` from `adapter.go`: runs the handler; a non-nil error is
handed to the given `ErrorHandler`.  `Router.adapt` in `chu.go` has the
same body with `errHandler` read from the router at request time; the
dispatch model below reuses this definition at that read value. -/
def AdaptHandler (h : Handler) (errHandler : ErrorHandler) : HttpHandler :=
  fun w r =>
    match h r.ctx w r with
    | (w', none) => w'
    | (w', some err) => errHandler w' r err

/-- `StandardHandler` from `adapter.go`: wraps a conventional handler into
the error-returning shape; the context argument is unused and the result
is always `nil`. -/
def StandardHandler (h : HttpHandler) : Handler :=
  fun _ w r => (h w r, none)

/-- A conventional (non-error-returning) middleware body, modelled as a
finite script: write to the response, replace the request context
(`r.WithContext`), or invoke the `next` handler it was given.  This
represents the arbitrary `func(http.Handler) http.Handler` value passed to
`AdaptMiddleware` by its interaction with the writer, request and `next`. -/
inductive MwScript where
  | done
  | write (s : String) (k : MwScript)
  | setCtx (c : Ctx) (k : MwScript)
  | callNext (k : MwScript)

/-- Execution of a conventional middleware script inside `AdaptMiddleware`:
the inner `http.HandlerFunc` closure assigns `err = next(r.Context(), w, r)`
on every invocation, overwriting the previous value of the shared `err`
variable. -/
def runScript (next : Handler) :
    MwScript → Request → Response → Option Err → Response × Option Err
  | .done, _, w, e => (w, e)
  | .write s k, r, w, e => runScript next k r (w.write s) e
  | .setCtx c k, r, w, e => runScript next k { r with ctx := c } w e
  | .callNext k, r, w, _ =>
      runScript next k r (next r.ctx w r).1 (next r.ctx w r).2

/-- `AdaptMiddleware` from `adapter.go`: `var err error` starts `nil`, the
std middleware runs with an inner handler that stores `next`'s result into
`err`, and the final value of `err` is returned.  The outer context
argument is unused, exactly as in the source. -/
def AdaptMiddleware (stdMiddleware : MwScript) : Handler → Handler :=
  fun next => fun _ w r => runScript next stdMiddleware r w none

/-- The error results, in order, of the `next` invocations a middleware
script performs (specification-side replay used to state what
`AdaptMiddleware` returns). -/
def nextErrors (next : Handler) : MwScript → Request → Response → List (Option Err)
  | .done, _, _ => []
  | .write s k, r, w => nextErrors next k r (w.write s)
  | .setCtx c k, r, w => nextErrors next k { r with ctx := c } w
  | .callNext k, r, w => (next r.ctx w r).2 :: nextErrors next k r (next r.ctx w r).1

/-- Whether a middleware script never invokes its `next` handler. -/
def noCallNext : MwScript → Bool
  | .done => true
  | .write _ k => noCallNext k
  | .setCtx _ k => noCallNext k
  | .callNext _ => false

/-! ## options.go and construction -/

/-- `defaultRouterBuilder` from `options.go` (`chi.NewRouter()`); chi
router instances are external and identified by a tag. -/
def defaultRouterBuilder : Unit → Nat := fun _ => 0

/-- The `chu.Router` struct: the underlying chi instance (by tag, `none`
before construction), the `errHandler` field and the nil-able
`routerBuilder` function field. -/
structure RouterData where
  chi : Option Nat
  errHandler : ErrorHandler
  routerBuilder : Option (Unit → Nat)

/-- A configuration option from `options.go` (`WithErrorHandler`,
`WithRouterBuilder`). -/
inductive Opt where
  | withErrorHandler (handler : ErrorHandler)
  | withRouterBuilder (builder : Unit → Nat)

/-- Application of one option to the router under construction, as in
`options.go`: each option overwrites its field. -/
def applyOpt (r : RouterData) : Opt → RouterData
  | .withErrorHandler handler => { r with errHandler := handler }
  | .withRouterBuilder builder => { r with routerBuilder := some builder }

/-- `New` from `chu.go`: start from the default builder and default error
handler, apply the options in order, then — only after all options ran —
invoke the resulting builder to create the chi instance. -/
def New (opts : List Opt) : RouterData :=
  let r : RouterData :=
    { chi := none, errHandler := defaultErrorHandler,
      routerBuilder := some defaultRouterBuilder }
  let r := opts.foldl applyOpt r
  { r with chi := r.routerBuilder.map fun b => b () }

/-- The builder supplied by the last `WithRouterBuilder` option, if any
(specification-side function). -/
def lastBuilder : List Opt → Option (Unit → Nat)
  | [] => none
  | .withErrorHandler _ :: rest => lastBuilder rest
  | .withRouterBuilder b :: rest =>
      match lastBuilder rest with
      | some b' => some b'
      | none => some b

/-! ## The router heap and the wrapper API of chu.go

Go pointer sharing is made explicit: `World.routers` is a heap of
`RouterData` records addressed by index, and `World.routes` is the
chi-side registry, each entry recording the registered pattern, the
router index the `adapt` closure captured, and the handler.  chi's own
pattern matching and mounting are external (spec sections 1 and 6); the
registry is flat and dispatch finds the first entry whose pattern equals
the request path. -/

structure World where
  routers : List RouterData
  routes : List (String × Nat × Handler)

/-- A run-time fault of the wrapper layer: calling a `nil`
`routerBuilder` function field (a Go panic), or using a dangling router
index (impossible in well-formed Go programs, present only to keep the
model total). -/
inductive ExecErr where
  | nilBuilder
  | badRid
deriving DecidableEq

/-- One API call on a router wrapper, with the wrapper identified by its
heap index: `SetErrorHandler`, a route registration such as `Get` (all
method registrations of `handlers.go` adapt identically), `Group`, or
`Route`.  The configuration callback of `Group`/`Route` and any use of
the returned sub-router are represented by later commands addressed to
the child's index. -/
inductive Cmd where
  | setErrorHandler (rid : Nat) (handler : ErrorHandler)
  | get (rid : Nat) (pattern : String) (h : Handler)
  | group (rid : Nat)
  | route (rid : Nat) (pattern : String)

/-- The child wrapper struct literal of `Group`/`Route` in `chu.go`:
`chi` from invoking the parent's builder, the parent's current
`errHandler` copied in, and the `routerBuilder` field left at its zero
value (nil). -/
def childOf (rd : RouterData) (b : Unit → Nat) : RouterData :=
  { chi := some (b ()), errHandler := rd.errHandler, routerBuilder := none }

/-- `Group`/`Route` from `chu.go`: call `r.routerBuilder()` — a Go panic
(`nilBuilder`) when that function field is nil — and allocate the child
wrapper `childOf`. -/
def groupStep (w : World) (rid : Nat) : Except ExecErr World :=
  match w.routers[rid]? with
  | none => .error .badRid
  | some rd =>
    match rd.routerBuilder with
    | none => .error .nilBuilder
    | some b => .ok { w with routers := w.routers ++ [childOf rd b] }

/-- Execution of one wrapper API call.  `get` records what
`r.chi.Get(pattern, r.adapt(h))` registers with chi: the `adapt` closure
captures the router pointer `r` and the handler `h`, so the entry stores
the router index and `h`; nothing of the error handler is resolved here. -/
def execCmd (w : World) : Cmd → Except ExecErr World
  | .setErrorHandler rid handler =>
    match w.routers[rid]? with
    | none => .error .badRid
    | some rd =>
      .ok { w with routers := w.routers.set rid { rd with errHandler := handler } }
  | .get rid pat h =>
    match w.routers[rid]? with
    | none => .error .badRid
    | some _ => .ok { w with routes := w.routes ++ [(pat, rid, h)] }
  | .group rid => groupStep w rid
  | .route rid _pat => groupStep w rid

/-- Execution of a sequence of wrapper API calls. -/
def execProg (w : World) : List Cmd → Except ExecErr World
  | [] => .ok w
  | c :: cs =>
    match execCmd w c with
    | .error e => .error e
    | .ok w' => execProg w' cs

/-- Serving one request: chi finds the matching registration, and the
stored `adapt` closure runs — it reads the `errHandler` field of the
router it captured at the moment the request is served, which is exactly
`AdaptHandler` applied at that current field value. -/
def dispatch (w : World) (resp : Response) (req : Request) : Response :=
  match w.routes.find? (fun en => en.1 == req.path) with
  | none => resp
  | some (_, rid, h) =>
    match w.routers[rid]? with
    | none => resp
    | some rd => AdaptHandler h rd.errHandler resp req

/-- A world holding one wrapper freshly produced by `New`. -/
def initWorld (opts : List Opt) : World :=
  { routers := [New opts], routes := [] }

/-! ## Use and the middleware chain -/

/-- The wrapping `Use` in `chu.go` performs on each registered middleware
(per-iteration loop-variable capture, Go >= 1.22): on each request it
builds a terminal error-returning handler that forwards to the next
conventional link and reports success, applies the user middleware to it,
runs the result, and hands a non-nil error to the bound error handler. -/
def wrapMiddleware (errHandler : ErrorHandler) (middleware : Handler → Handler) :
    (HttpHandler → HttpHandler) :=
  fun next => fun w req =>
    match middleware (fun _ w' r' => (next w' r', none)) req.ctx w req with
    | (w', none) => w'
    | (w', some err) => errHandler w' req err

/-- `Use` from `chu.go`: the list of wrapped conventional middlewares
handed to `r.chi.Use`, in registration order. -/
def Use (errHandler : ErrorHandler) (middlewares : List (Handler → Handler)) :
    List (HttpHandler → HttpHandler) :=
  middlewares.map (wrapMiddleware errHandler)

/-- chi's middleware chaining (external collaborator, spec section 4.1):
the first registered link is outermost, each link wraps the next, the
endpoint is innermost. -/
def chain (mws : List (HttpHandler → HttpHandler)) (endpoint : HttpHandler) :
    HttpHandler :=
  mws.foldr (fun m acc => m acc) endpoint

/-- An error-returning middleware that tags its pre-logic and post-logic
with writes, used to observe execution order. -/
def logMw (t : String) : Handler → Handler :=
  fun next => fun ctx w r =>
    ((next ctx (w.write ("pre:" ++ t)) r).1.write ("post:" ++ t),
     (next ctx (w.write ("pre:" ++ t)) r).2)

/-- A `Handler` that ignores its `next` — used to state that a middleware
never invokes the handler it is given. -/
def dummyNext : Handler := fun _ w _ => (w, none)

/-! ## Sample values used by witnesses and counterexamples -/

/-- A handler that writes a chunk and succeeds. -/
def okH : Handler := fun _ w _ => (w.write "ok", none)

/-- A handler that fails with the error message `boom` without writing. -/
def failH : Handler := fun _ w _ => (w, some "boom")

/-- A sample request. -/
def req0 : Request := { ctx := 0, path := "/p" }

/-- A custom error handler that writes the chunk `B`. -/
def ehB : ErrorHandler := fun w _ _ => w.write "B"

/-- A middleware that ignores its next handler and fails with `boom`. -/
def constErrMw : Handler → Handler := fun _ => fun _ w _ => (w, some "boom")

/-- A builder producing the chi instance tagged 1. -/
def builder1 : Unit → Nat := fun _ => 1

/-- A builder producing the chi instance tagged 2. -/
def builder2 : Unit → Nat := fun _ => 2

/-- The one-router world with a failing route registered at `/p`. -/
def W1 : World := { routers := [New []], routes := [("/p", 0, failH)] }

/-- `W1` after `SetErrorHandler(ehB)` on its only wrapper. -/
def W2 : World :=
  { routers := [{ chi := some 0, errHandler := ehB,
                  routerBuilder := some defaultRouterBuilder }],
    routes := [("/p", 0, failH)] }

/-- The world after one `Group` on a fresh default router: the child
wrapper at index 1 has a nil `routerBuilder`. -/
def WG : World :=
  { routers := [New [],
      { chi := some 0, errHandler := defaultErrorHandler,
        routerBuilder := none }],
    routes := [] }

/-! ## Helper lemmas -/

/-- Appending to a registration list does not disturb an earlier first
match failure: lookup continues in the appended part. -/
theorem find_append_of_none {α} (p : α → Bool) {l₁ : List α} (l₂ : List α)
    (h : l₁.find? p = none) : (l₁ ++ l₂).find? p = l₂.find? p := by
  simp [List.find?_append, h]

/-- The freshly appended element is found at the old length. -/
theorem getElem_concat_length {α} (l : List α) (a : α) :
    (l ++ [a])[l.length]? = some a := by
  simp

/-- Indices below the old length are unaffected by appending. -/
theorem getElem_append_lt {α} (l₁ l₂ : List α) (i : Nat) (h : i < l₁.length) :
    (l₁ ++ l₂)[i]? = l₁[i]? := by
  rw [List.getElem?_append]
  simp [h]

/-- Updating index `i` leaves other indices unchanged. -/
theorem getElem_set_ne {α} (l : List α) (i j : Nat) (a : α) (h : i ≠ j) :
    (l.set i a)[j]? = l[j]? :=
  List.getElem?_set_ne h

/-- Updating a valid index stores the new value there. -/
theorem getElem_set_self {α} (l : List α) (i : Nat) (a : α) (h : i < l.length) :
    (l.set i a)[i]? = some a := by
  rw [List.getElem?_set_self]
  exact h

/-- A successful `getElem?` lookup implies the index is in bounds. -/
theorem lt_of_getElem_eq_some {α} {l : List α} {i : Nat} {a : α}
    (h : l[i]? = some a) : i < l.length := by
  by_contra hlt
  rw [List.getElem?_eq_none (Nat.le_of_not_lt hlt)] at h
  cases h

/-- The error variable of `runScript` ends as the last `next` error, with
the incoming value surviving only when `next` is never invoked. -/
theorem runScript_snd (next : Handler) (s : MwScript) :
    ∀ (r : Request) (w : Response) (e : Option Err),
      (runScript next s r w e).2 = (nextErrors next s r w).getLastD e := by
  induction s with
  | done => intro r w e; rfl
  | write sReed k ih => intro r w e; simp [runScript, nextErrors, ih]
  | setCtx c k ih => intro r w e; simp [runScript, nextErrors, ih]
  | callNext k ih =>
    intro r w e
    simp [runScript, nextErrors, ih, List.getLast?_cons, List.getLastD_eq_getLast?]

/-- A script that never invokes `next` performs no `next` invocation in
the replay either. -/
theorem nextErrors_of_noCallNext (next : Handler) (s : MwScript)
    (hnc : noCallNext s = true) :
    ∀ (r : Request) (w : Response), nextErrors next s r w = [] := by
  induction s with
  | done => intro r w; rfl
  | write sReed k ih => intro r w; exact ih hnc r (w.write sReed)
  | setCtx c k ih => intro r w; exact ih hnc { r with ctx := c } w
  | callNext k ih => cases hnc

/-- The final `routerBuilder` after folding the options is the last
`WithRouterBuilder`'s builder, or the initial one when no option set it. -/
theorem foldl_routerBuilder (opts : List Opt) :
    ∀ r : RouterData,
      (opts.foldl applyOpt r).routerBuilder =
        match lastBuilder opts with
        | some b => some b
        | none => r.routerBuilder := by
  induction opts with
  | nil => intro r; rfl
  | cons o rest ih =>
    intro r
    cases o with
    | withErrorHandler handler =>
      simp only [List.foldl_cons, applyOpt, lastBuilder]
      exact ih { r with errHandler := handler }
    | withRouterBuilder builder =>
      simp only [List.foldl_cons, applyOpt, lastBuilder]
      rw [ih { r with routerBuilder := some builder }]
      cases lastBuilder rest <;> rfl

/-! ## Claims -/

/-- C2: for every Handler run through the adapter, if the Handler returns
nil the ErrorHandler is never invoked (the result does not depend on it
at all) and the adapter adds no write of its own; if the Handler returns
a non-nil error, the ErrorHandler is invoked exactly once with exactly
that error value and the handler-written response, and the adapter
performs no other write.  `Router.adapt` is this same logic at the
wrapper's current `errHandler` (see `dispatch`). -/
theorem C2_adapter_exact (h : Handler) (eh : ErrorHandler) (w : Response)
    (r : Request) :
    (∀ w1, h r.ctx w r = (w1, none) →
      AdaptHandler h eh w r = w1 ∧
        ∀ eh2 : ErrorHandler, AdaptHandler h eh2 w r = w1) ∧
    (∀ w1 e, h r.ctx w r = (w1, some e) →
      AdaptHandler h eh w r = eh w1 r e) := by
  constructor
  · intro w1 hnil
    constructor
    · simp [AdaptHandler, hnil]
    · intro eh2
      simp [AdaptHandler, hnil]
  · intro w1 e herr
    simp [AdaptHandler, herr]

/-- Witness for C2 at a concrete input: a succeeding handler's response
passes through untouched, under the default error handler. -/
theorem C2_adapter_exact_witness :
    AdaptHandler okH defaultErrorHandler freshResponse req0 =
      freshResponse.write "ok" :=
  ((C2_adapter_exact okH defaultErrorHandler freshResponse req0).1
    (freshResponse.write "ok") rfl).1

/-- C7: for every error value, the default ErrorHandler writes status 500
and exactly the error's textual message followed by a newline. -/
theorem C7_default_error_handler (e : Err) (r : Request) :
    defaultErrorHandler freshResponse r e =
      { status := some 500, body := [e ++ "\n"] } := rfl

/-- C8: `StandardHandler h` invokes `h` with the writer and request and
always returns nil, for every conventional handler and every
(context, writer, request). -/
theorem C8_standard_handler (h : HttpHandler) (c : Ctx) (w : Response)
    (r : Request) :
    (StandardHandler h c w r).1 = h w r ∧ (StandardHandler h c w r).2 = none :=
  ⟨rfl, rfl⟩

/-- C10: the error returned by an `AdaptMiddleware`-produced middleware is
the result of the last invocation of `next` the conventional middleware
performed; in particular, a conventional middleware that never invokes
`next` is reported as success (nil). -/
theorem C10_adapt_middleware_last_error (s : MwScript) (next : Handler)
    (c : Ctx) (w : Response) (r : Request) :
    (AdaptMiddleware s next c w r).2 = (nextErrors next s r w).getLastD none ∧
    (noCallNext s = true → (AdaptMiddleware s next c w r).2 = none) := by
  refine ⟨runScript_snd next s r w none, fun hnc => ?_⟩
  rw [show (AdaptMiddleware s next c w r).2 = (runScript next s r w none).2 from rfl,
    runScript_snd next s r w none, nextErrors_of_noCallNext next s hnc r w]
  rfl

/-- Witness for C10 at a concrete input: a middleware that only writes and
never calls `next` yields nil even above a failing handler. -/
theorem C10_adapt_middleware_last_error_witness :
    (AdaptMiddleware (.write "x" .done) failH 0 freshResponse req0).2 = none :=
  (C10_adapt_middleware_last_error (.write "x" .done) failH 0 freshResponse
    req0).2 rfl

/-- C4: middlewares registered via Use in order A, B, C execute as nested
decorators, with the middleware at each chain link being the one
registered at that position: observed on arbitrary tagged middlewares,
the pre-logic runs in registration order with A first, the endpoint runs
innermost, and the post-logic runs in reverse order with A last. -/
theorem C4_middleware_order (a b c : String) (eh : ErrorHandler)
    (w : Response) (r : Request) :
    chain (Use eh [logMw a, logMw b, logMw c]) (fun w' _ => w'.write "endpoint")
        w r =
      ((((((w.write ("pre:" ++ a)).write ("pre:" ++ b)).write
        ("pre:" ++ c)).write "endpoint").write ("post:" ++ c)).write
        ("post:" ++ b)).write ("post:" ++ a) := rfl

/-- C5: a middleware registered via Use that, on this request, returns a
non-nil error without invoking its next Handler (its behavior at this
(context, writer, request) does not depend on which next it was given)
short-circuits the chain: the bound ErrorHandler is invoked with exactly
that middleware's error, and the result is independent of everything
underneath it — any remaining middlewares and any route handler give the
same outcome, so the route handler underneath is never invoked. -/
theorem C5_short_circuit (m : Handler → Handler) (e : Err) (eh : ErrorHandler)
    (rest : List (Handler → Handler)) (endpoint : HttpHandler)
    (w w1 : Response) (r : Request)
    (hind : ∀ n : Handler, m n r.ctx w r = m dummyNext r.ctx w r)
    (herr : m dummyNext r.ctx w r = (w1, some e)) :
    chain (Use eh (m :: rest)) endpoint w r = eh w1 r e ∧
    ∀ (rest₂ : List (Handler → Handler)) (endpoint₂ : HttpHandler),
      chain (Use eh (m :: rest₂)) endpoint₂ w r = eh w1 r e := by
  have key : ∀ (rs : List (Handler → Handler)) (ep : HttpHandler),
      chain (Use eh (m :: rs)) ep w r = eh w1 r e := by
    intro rs ep
    show wrapMiddleware eh m (chain (Use eh rs) ep) w r = eh w1 r e
    rw [wrapMiddleware,
      hind (fun _ w' r' => (chain (Use eh rs) ep w' r', none)), herr]
  exact ⟨key rest endpoint, fun rs ep => key rs ep⟩

/-- Witness for C5 at a concrete input: the failing middleware alone above
an endpoint; the default error handler fires with its error. -/
theorem C5_short_circuit_witness :
    chain (Use defaultErrorHandler [constErrMw]) (fun w' _ => w'.write "endpoint")
        freshResponse req0 =
      defaultErrorHandler freshResponse req0 "boom" :=
  (C5_short_circuit constErrMw "boom" defaultErrorHandler []
    (fun w' _ => w'.write "endpoint") freshResponse freshResponse req0
    (fun _ => rfl) rfl).1

/-- C6: New applies the options in order to a wrapper initialized with the
default construction strategy and default ErrorHandler, and creates the
underlying router only after all options have run: whenever some
WithRouterBuilder options are given, the last one's builder is the one
actually invoked — its output, and no other builder's, becomes the chi
instance (full replacement, no merging). -/
theorem C6_last_builder (opts : List Opt) (b : Unit → Nat)
    (hlast : lastBuilder opts = some b) :
    (New opts).chi = some (b ()) := by
  show ((opts.foldl applyOpt
      { chi := none, errHandler := defaultErrorHandler,
        routerBuilder := some defaultRouterBuilder }).routerBuilder.map
      fun bd => bd ()) = some (b ())
  rw [foldl_routerBuilder, hlast]
  rfl

/-- Witness for C6 at a concrete input: with two WithRouterBuilder options
the second builder's instance is the one created. -/
theorem C6_last_builder_witness :
    (New [.withRouterBuilder builder1, .withRouterBuilder builder2]).chi =
      some 2 :=
  C6_last_builder [.withRouterBuilder builder1, .withRouterBuilder builder2]
    builder2 rfl

/-- C1 as stated is false on the code: the `adapt` closure reads the
wrapper's `errHandler` field when the request is served, so
`SetErrorHandler` called after a route was registered does change which
ErrorHandler that route's failure invokes.  Concretely: register a
failing route on a fresh default router, then set `ehB`; the failed
dispatch produces `ehB`'s response, not the response of the
ErrorHandler that was bound at registration time. -/
theorem C1_counterexample :
    (execProg (initWorld []) [.get 0 "/p" failH, .setErrorHandler 0 ehB]).map
        (fun w => dispatch w freshResponse req0) =
      .ok (freshResponse.write "B") ∧
    freshResponse.write "B" ≠ defaultErrorHandler freshResponse req0 "boom" :=
  ⟨rfl, by decide⟩

/-- C1 amended: the ErrorHandler consulted when a registered route's
Handler fails is the one bound to the registering wrapper at request
time: after `SetErrorHandler` on that wrapper, a failure of any route
registered on it — including routes registered before the change —
invokes the new ErrorHandler. -/
theorem C1_request_time_resolution (w : World) (rid : Nat)
    (eh : ErrorHandler) (h : Handler) (w' : World) (resp resp1 : Response)
    (req : Request) (e : Err)
    (hfind : w.routes.find? (fun en => en.1 == req.path) =
      some (req.path, rid, h))
    (hexec : execCmd w (.setErrorHandler rid eh) = .ok w')
    (hh : h req.ctx resp req = (resp1, some e)) :
    dispatch w' resp req = eh resp1 req e := by
  simp only [execCmd] at hexec
  cases hrd : w.routers[rid]? with
  | none => rw [hrd] at hexec; exact Except.noConfusion hexec
  | some rd =>
    rw [hrd] at hexec
    injection hexec with hw
    subst hw
    have hlt : rid < w.routers.length := lt_of_getElem_eq_some hrd
    simp only [dispatch, hfind, getElem_set_self w.routers rid _ hlt,
      AdaptHandler, hh]

/-- Witness for the amended C1 at a concrete input: the previously
registered route now fails into `ehB`. -/
theorem C1_request_time_resolution_witness :
    dispatch W2 freshResponse req0 = ehB freshResponse req0 "boom" :=
  C1_request_time_resolution W1 0 ehB failH W2 freshResponse freshResponse
    req0 "boom" rfl rfl rfl

/-- C3: a sub-scope created with Group (or Route, which allocates the
child identically) copies the parent's ErrorHandler value at creation
time into the child wrapper; a handler then registered on the child and a
subsequent `SetErrorHandler` on the parent leave the child's routes
failing into the copied value — the parent's later handler `eh2` plays no
role in the outcome. -/
theorem C3_scope_snapshot (w : World) (rid : Nat) (rd : RouterData)
    (b : Unit → Nat) (eh2 : ErrorHandler) (h : Handler)
    (resp resp1 : Response) (req : Request) (e : Err)
    (hrd : w.routers[rid]? = some rd)
    (hb : rd.routerBuilder = some b)
    (hfresh : w.routes.find? (fun en => en.1 == req.path) = none)
    (hh : h req.ctx resp req = (resp1, some e)) :
    (execProg w [.group rid, .get w.routers.length req.path h,
        .setErrorHandler rid eh2]).map (fun w2 => dispatch w2 resp req) =
      .ok (rd.errHandler resp1 req e) := by
  have hlt : rid < w.routers.length := lt_of_getElem_eq_some hrd
  have h1 : execCmd w (.group rid) =
      .ok { w with routers := w.routers ++ [childOf rd b] } := by
    simp only [execCmd, groupStep, hrd, hb]
  have h2 : execCmd { w with routers := w.routers ++ [childOf rd b] }
      (.get w.routers.length req.path h) =
      .ok { routers := w.routers ++ [childOf rd b],
            routes := w.routes ++ [(req.path, w.routers.length, h)] } := by
    simp only [execCmd, getElem_concat_length]
  have h3 : execCmd
      { routers := w.routers ++ [childOf rd b],
        routes := w.routes ++ [(req.path, w.routers.length, h)] }
      (.setErrorHandler rid eh2) =
      .ok { routers := (w.routers ++ [childOf rd b]).set rid
              { rd with errHandler := eh2 },
            routes := w.routes ++ [(req.path, w.routers.length, h)] } := by
    simp only [execCmd, getElem_append_lt w.routers _ rid hlt, hrd]
  have hfind : (w.routes ++ [(req.path, w.routers.length, h)]).find?
      (fun en => en.1 == req.path) = some (req.path, w.routers.length, h) := by
    rw [find_append_of_none _ _ hfresh]
    simp [List.find?]
  simp only [execProg, h1, h2, h3, Except.map]
  simp only [dispatch, hfind,
    getElem_set_ne _ rid w.routers.length _ (Nat.ne_of_lt hlt),
    getElem_concat_length, childOf, AdaptHandler, hh]

/-- Witness for C3 at a concrete input: a fresh default router, a group,
a failing route on the child, then `SetErrorHandler(ehB)` on the parent;
the dispatch fails into the default ErrorHandler copied at group time. -/
theorem C3_scope_snapshot_witness :
    (execProg (initWorld []) [.group 0, .get 1 "/p" failH,
        .setErrorHandler 0 ehB]).map
        (fun w2 => dispatch w2 freshResponse req0) =
      .ok (defaultErrorHandler freshResponse req0 "boom") :=
  C3_scope_snapshot (initWorld []) 0 (New []) defaultRouterBuilder ehB failH
    freshResponse freshResponse req0 "boom" rfl rfl rfl rfl

/-- C9: a sub-router created by Group or Route has a nil `routerBuilder`
field (Group and Route copy the parent's ErrorHandler but not its
construction strategy), so calling Group or Route on such a sub-router
invokes a nil construction strategy: nested sub-scoping two levels deep
reaches the nil-function call. -/
theorem C9_nested_group_nil_builder (w w' : World) (rid : Nat)
    (hexec : execCmd w (.group rid) = .ok w') :
    execCmd w' (.group w.routers.length) = .error .nilBuilder ∧
    ∀ pat, execCmd w' (.route w.routers.length pat) = .error .nilBuilder := by
  simp only [execCmd, groupStep] at hexec
  split at hexec
  · exact Except.noConfusion hexec
  · split at hexec
    · exact Except.noConfusion hexec
    · injection hexec with hw
      subst hw
      constructor
      · simp only [execCmd, groupStep, getElem_concat_length, childOf]
      · intro pat
        simp only [execCmd, groupStep, getElem_concat_length, childOf]

/-- Witness for C9 at a concrete input: `Group` on the child created by
`Group` hits the nil construction strategy. -/
theorem C9_nested_group_nil_builder_witness :
    execCmd WG (.group 1) = .error .nilBuilder :=
  (C9_nested_group_nil_builder (initWorld []) WG 0 rfl).1

end Chu
